import Mathlib

/-!
Shallow embedding of `stateroom-wasm-host/src/wasm_host.rs`.

The guest WebAssembly instance is modelled as a `Store` (linear memory as a
list of byte values, plus abstract guest-private state) together with a
record `GuestFns` of the guest's exported functions.  Each guest function
receives the whole store and returns the updated store together with either
a result or a trap, mirroring wasmtime's `TypedFunc::call` on a `&mut Store`
(partial mutations persist even when the call traps).

Host-side operations additionally produce a trace of the guest calls they
perform, so that ordering and alloc/free-balance properties can be stated.
-/

namespace Stateroom

/-- A wasmtime trap / `anyhow` error message produced by a guest call. -/
abbrev Trap := String

/-- `2^32`; u32 arithmetic in the source is modelled as `Nat` mod this. -/
def U32_MOD : Nat := 4294967296

/-- A wasmtime `Store`: the guest's exported linear memory (`memory`) plus
the guest's own private state, abstracted as `S`. -/
structure Store (S : Type) where
  mem : List Nat
  guest : S
  deriving Repr, DecidableEq

/-- The guest exports used by `WasmHost`: `jam_malloc`, `jam_free`,
`message`, `binary`, `connect`, `disconnect`, `timer`, `initialize`.
Each models a wasmtime `TypedFunc` call: it transforms the store and either
returns normally or traps. -/
structure GuestFns (S : Type) where
  malloc : Store S → Nat → Store S × Except Trap Nat
  free : Store S → Nat → Nat → Store S × Option Trap
  message : Store S → Nat → Nat → Nat → Store S × Option Trap
  binary : Store S → Nat → Nat → Nat → Store S × Option Trap
  connect : Store S → Nat → Store S × Option Trap
  disconnect : Store S → Nat → Store S × Option Trap
  timer : Store S → Store S × Option Trap
  initGuest : Store S → Nat → Nat → Store S × Option Trap

/-- The `WasmHost` struct: the store plus the typed function handles
(the `memory` handle is part of `store`). -/
structure WasmHost (S : Type) where
  store : Store S
  fns : GuestFns S

/-- Overwrite `data.length` bytes of `mem` starting at offset `pt`
(meaningful when `pt + data.length ≤ mem.length`). -/
def writeBytes (mem : List Nat) (pt : Nat) (data : List Nat) : List Nat :=
  mem.take pt ++ data ++ mem.drop (pt + data.length)

/-- wasmtime's `Memory::write`: bounds-check, then copy; `none` models the
`MemoryAccessError` when the write would run past the memory's length. -/
def memWrite {S : Type} (st : Store S) (pt : Nat) (data : List Nat) :
    Option (Store S) :=
  if pt + data.length ≤ st.mem.length then
    some { st with mem := writeBytes st.mem pt data }
  else
    none

/-- Errors an event-delivery operation can produce: a guest trap, or the
`MemoryAccessError` from `Memory::write` (both travel as `anyhow::Error`
in the source). -/
inductive CallError where
  | trap (t : Trap)
  | memoryOutOfBounds
  deriving Repr, DecidableEq

/-- A structured `tracing::error!` event emitted by a service method. -/
inductive LogEvent where
  | errorCalling (method : String) (error : CallError)
  deriving Repr, DecidableEq

/-- Errors of `WasmHost::new` (beyond instantiation/linking, which the
model takes as given): traps and write failures from the room-id transfer,
and the `WasmRuntimeError` variants used by `get_global` and the version
checks. -/
inductive NewError where
  | initTrap (t : Trap)
  | memoryOutOfBounds
  | couldNotImportGlobal
  | invalidApiVersion
  | invalidProtocolVersion
  deriving Repr, DecidableEq

/-- One host-initiated interaction with the guest instance, recorded in
the order the host performs them. -/
inductive TraceEv where
  | mallocCall (len : Nat)
  | memWriteAttempt (pt len : Nat)
  | messageCall (client pt len : Nat)
  | binaryCall (client pt len : Nat)
  | connectCall (client : Nat)
  | disconnectCall (client : Nat)
  | timerCall
  | initCall (pt len : Nat)
  | freeCall (pt len : Nat)
  | readGlobalOk (gname : String) (value : Int)
  | readGlobalErr (gname : String)
  deriving Repr, DecidableEq

/-- Result of a fallible internal delivery helper (`try_message`,
`try_binary`): updated host, optional error, trace of guest calls. -/
structure CallResult (S : Type) where
  host : WasmHost S
  err : Option CallError
  trace : List TraceEv

/-- Result of a public `StateroomService` method: updated host, optional
logged error event (the method itself returns unit), trace. -/
structure SvcResult (S : Type) where
  host : WasmHost S
  log : Option LogEvent
  trace : List TraceEv

/-- `WasmHost::put_data`: `len = data.len() as u32`; call `jam_malloc`,
then `Memory::write` at the returned offset; both failures propagate. -/
def WasmHost.put_data {S : Type} (h : WasmHost S) (data : List Nat) :
    WasmHost S × Except CallError (Nat × Nat) × List TraceEv :=
  let len := data.length % U32_MOD
  match h.fns.malloc h.store len with
  | (st, .error t) =>
    ({ h with store := st }, .error (.trap t), [.mallocCall len])
  | (st, .ok pt) =>
    match memWrite st pt data with
    | some st' =>
      ({ h with store := st' }, .ok (pt, len),
        [.mallocCall len, .memWriteAttempt pt len])
    | none =>
      ({ h with store := st }, .error .memoryOutOfBounds,
        [.mallocCall len, .memWriteAttempt pt len])

/-- `WasmHost::try_message`: put the payload, call `message(client, pt,
len)`, then `jam_free(pt, len)`; every failure propagates via `?`. -/
def WasmHost.try_message {S : Type} (h : WasmHost S) (client : Nat)
    (message : List Nat) : CallResult S :=
  match h.put_data message with
  | (h', .error e, tr) => ⟨h', some e, tr⟩
  | (h', .ok (pt, len), tr) =>
    match h'.fns.message h'.store client pt len with
    | (st, some t) =>
      ⟨{ h' with store := st }, some (.trap t),
        tr ++ [.messageCall client pt len]⟩
    | (st, none) =>
      match h'.fns.free st pt len with
      | (st2, some t) =>
        ⟨{ h' with store := st2 }, some (.trap t),
          tr ++ [.messageCall client pt len, .freeCall pt len]⟩
      | (st2, none) =>
        ⟨{ h' with store := st2 }, none,
          tr ++ [.messageCall client pt len, .freeCall pt len]⟩

/-- `WasmHost::try_binary`: same as `try_message` on `binary`. -/
def WasmHost.try_binary {S : Type} (h : WasmHost S) (client : Nat)
    (message : List Nat) : CallResult S :=
  match h.put_data message with
  | (h', .error e, tr) => ⟨h', some e, tr⟩
  | (h', .ok (pt, len), tr) =>
    match h'.fns.binary h'.store client pt len with
    | (st, some t) =>
      ⟨{ h' with store := st }, some (.trap t),
        tr ++ [.binaryCall client pt len]⟩
    | (st, none) =>
      match h'.fns.free st pt len with
      | (st2, some t) =>
        ⟨{ h' with store := st2 }, some (.trap t),
          tr ++ [.binaryCall client pt len, .freeCall pt len]⟩
      | (st2, none) =>
        ⟨{ h' with store := st2 }, none,
          tr ++ [.binaryCall client pt len, .freeCall pt len]⟩

/-- `StateroomService::message` for `WasmHost`: on error, emit a
structured error event and return unit. -/
def WasmHost.message {S : Type} (h : WasmHost S) (client : Nat)
    (msg : List Nat) : SvcResult S :=
  match h.try_message client msg with
  | ⟨h', some e, tr⟩ => ⟨h', some (.errorCalling "message" e), tr⟩
  | ⟨h', none, tr⟩ => ⟨h', none, tr⟩

/-- `StateroomService::binary` for `WasmHost`. -/
def WasmHost.binary {S : Type} (h : WasmHost S) (client : Nat)
    (msg : List Nat) : SvcResult S :=
  match h.try_binary client msg with
  | ⟨h', some e, tr⟩ => ⟨h', some (.errorCalling "binary" e), tr⟩
  | ⟨h', none, tr⟩ => ⟨h', none, tr⟩

/-- `StateroomService::connect` for `WasmHost`. -/
def WasmHost.connect {S : Type} (h : WasmHost S) (client : Nat) :
    SvcResult S :=
  match h.fns.connect h.store client with
  | (st, some t) =>
    ⟨{ h with store := st }, some (.errorCalling "connect" (.trap t)),
      [.connectCall client]⟩
  | (st, none) => ⟨{ h with store := st }, none, [.connectCall client]⟩

/-- `StateroomService::disconnect` for `WasmHost`. -/
def WasmHost.disconnect {S : Type} (h : WasmHost S) (client : Nat) :
    SvcResult S :=
  match h.fns.disconnect h.store client with
  | (st, some t) =>
    ⟨{ h with store := st }, some (.errorCalling "disconnect" (.trap t)),
      [.disconnectCall client]⟩
  | (st, none) => ⟨{ h with store := st }, none, [.disconnectCall client]⟩

/-- `StateroomService::timer` for `WasmHost`. -/
def WasmHost.timer {S : Type} (h : WasmHost S) : SvcResult S :=
  match h.fns.timer h.store with
  | (st, some t) =>
    ⟨{ h with store := st }, some (.errorCalling "timer" (.trap t)),
      [.timerCall]⟩
  | (st, none) => ⟨{ h with store := st }, none, [.timerCall]⟩

/-! ### Version globals and `WasmHost::new` -/

/-- The value of an exported Wasm global: an `i32`, or some other type. -/
inductive GlobalVal where
  | i32 (i : Int)
  | other
  deriving Repr, DecidableEq

/-- The parts of an instantiated module that `WasmHost::new` uses after
linking: the guest exports and the exported globals by name. -/
structure ModuleInst (S : Type) where
  fns : GuestFns S
  globals : String → Option GlobalVal

/-- `i as u32` on an `i32` value. -/
def u32OfI32 (i : Int) : Nat := (i % (U32_MOD : Int)).toNat

/-- Reinterpret a `Nat` (mod `2^32`) as a signed 32-bit value. -/
def i32OfNat (n : Nat) : Int :=
  if n % U32_MOD < 2147483648 then (n % U32_MOD : Int)
  else (n % U32_MOD : Int) - (U32_MOD : Int)

/-- `slice.get(a..b)`: `some` of the sub-slice iff `a ≤ b ∧ b ≤ len`. -/
def sliceGet (l : List Nat) (a b : Nat) : Option (List Nat) :=
  if a ≤ b ∧ b ≤ l.length then some ((l.drop a).take (b - a)) else none

/-- `byteorder`'s `read_i32::<LittleEndian>` on the first four bytes. -/
def readLE32 (bytes : List Nat) : Int :=
  i32OfNat (bytes.getD 0 0 + 256 * bytes.getD 1 0 + 65536 * bytes.getD 2 0
    + 16777216 * bytes.getD 3 0)

def EXT_JAMSOCKET_VERSION : String := "JAMSOCKET_API_VERSION"
def EXT_JAMSOCKET_PROTOCOL : String := "JAMSOCKET_API_PROTOCOL"
def EXPECTED_API_VERSION : Int := 1
def EXPECTED_PROTOCOL_VERSION : Int := 0

/-- `get_global`: fetch the named global (must exist and be `i32`), cast
its value to `u32`, slice four bytes of guest memory at that offset, and
parse them little-endian. Every failure is `CouldNotImportGlobal`. -/
def get_global {S : Type} (st : Store S)
    (globals : String → Option GlobalVal) (gname : String) :
    Except NewError Int :=
  match globals gname with
  | some (.i32 gi) =>
    match sliceGet st.mem (u32OfI32 gi) (u32OfI32 gi + 4) with
    | some bytes => .ok (readLE32 bytes)
    | none => .error .couldNotImportGlobal
  | _ => .error .couldNotImportGlobal

/-- Spec-side description of the version-cell read: the global holds a
*pointer* into guest memory; the version is the 32-bit little-endian
integer formed from the four bytes at that address, `none` when the
four-byte range is out of bounds. -/
def readVersionCell (mem : List Nat) (p : Nat) : Option Int :=
  if p + 4 ≤ mem.length then
    some (i32OfNat (mem.getD p 0 + 256 * mem.getD (p + 1) 0
      + 65536 * mem.getD (p + 2) 0 + 16777216 * mem.getD (p + 3) 0))
  else
    none

/-- `WasmHost::new`, from the point where linking and export resolution
have succeeded (the exports are the given `ModuleInst`): copy the room id
into guest memory via `jam_malloc` + `Memory::write`, call
`initialize(pt, len)`, free the buffer, then read and check the two
version globals, and only then hand back the host. -/
def WasmHost.new {S : Type} (room_id : List Nat) (m : ModuleInst S)
    (st0 : Store S) : Except NewError (WasmHost S) × List TraceEv :=
  let len := room_id.length % U32_MOD
  match m.fns.malloc st0 len with
  | (_, .error t) => (.error (.initTrap t), [.mallocCall len])
  | (st1, .ok pt) =>
    match memWrite st1 pt room_id with
    | none =>
      (.error .memoryOutOfBounds, [.mallocCall len, .memWriteAttempt pt len])
    | some st2 =>
      match m.fns.initGuest st2 pt len with
      | (_, some t) =>
        (.error (.initTrap t),
          [.mallocCall len, .memWriteAttempt pt len, .initCall pt len])
      | (st3, none) =>
        match m.fns.free st3 pt len with
        | (_, some t) =>
          (.error (.initTrap t),
            [.mallocCall len, .memWriteAttempt pt len, .initCall pt len,
              .freeCall pt len])
        | (st4, none) =>
          match get_global st4 m.globals EXT_JAMSOCKET_VERSION with
          | .error e =>
            (.error e,
              [.mallocCall len, .memWriteAttempt pt len, .initCall pt len,
                .freeCall pt len, .readGlobalErr EXT_JAMSOCKET_VERSION])
          | .ok v =>
            if v ≠ EXPECTED_API_VERSION then
              (.error .invalidApiVersion,
                [.mallocCall len, .memWriteAttempt pt len, .initCall pt len,
                  .freeCall pt len, .readGlobalOk EXT_JAMSOCKET_VERSION v])
            else
              match get_global st4 m.globals EXT_JAMSOCKET_PROTOCOL with
              | .error e =>
                (.error e,
                  [.mallocCall len, .memWriteAttempt pt len,
                    .initCall pt len, .freeCall pt len,
                    .readGlobalOk EXT_JAMSOCKET_VERSION v,
                    .readGlobalErr EXT_JAMSOCKET_PROTOCOL])
              | .ok p =>
                if p ≠ EXPECTED_PROTOCOL_VERSION then
                  (.error .invalidProtocolVersion,
                    [.mallocCall len, .memWriteAttempt pt len,
                      .initCall pt len, .freeCall pt len,
                      .readGlobalOk EXT_JAMSOCKET_VERSION v,
                      .readGlobalOk EXT_JAMSOCKET_PROTOCOL p])
                else
                  (.ok ⟨st4, m.fns⟩,
                    [.mallocCall len, .memWriteAttempt pt len,
                      .initCall pt len, .freeCall pt len,
                      .readGlobalOk EXT_JAMSOCKET_VERSION v,
                      .readGlobalOk EXT_JAMSOCKET_PROTOCOL p])

/-! ### The host import closures `send_message` / `send_binary` -/

/-- Is `b` a UTF-8 continuation byte (`0x80..=0xBF`)? -/
def utf8Cont (b : Nat) : Bool := 128 ≤ b && b ≤ 191

/-- `std::str::from_utf8` validity on a byte sequence (the standard UTF-8
well-formedness table: ASCII; C2–DF + cont; E0 A0–BF cont; E1–EC/EE/EF
cont cont; ED 80–9F cont; F0 90–BF cont cont; F1–F3 cont cont cont;
F4 80–8F cont cont). -/
def validUtf8 : List Nat → Bool
  | [] => true
  | b :: bs =>
    if b ≤ 127 then validUtf8 bs
    else if 194 ≤ b && b ≤ 223 then
      match bs with
      | b1 :: bs1 => utf8Cont b1 && validUtf8 bs1
      | [] => false
    else if b == 224 then
      match bs with
      | b1 :: b2 :: bs2 =>
        (160 ≤ b1 && b1 ≤ 191) && utf8Cont b2 && validUtf8 bs2
      | _ => false
    else if (225 ≤ b && b ≤ 236) || b == 238 || b == 239 then
      match bs with
      | b1 :: b2 :: bs2 => utf8Cont b1 && utf8Cont b2 && validUtf8 bs2
      | _ => false
    else if b == 237 then
      match bs with
      | b1 :: b2 :: bs2 =>
        (128 ≤ b1 && b1 ≤ 159) && utf8Cont b2 && validUtf8 bs2
      | _ => false
    else if b == 240 then
      match bs with
      | b1 :: b2 :: b3 :: bs3 =>
        (144 ≤ b1 && b1 ≤ 191) && utf8Cont b2 && utf8Cont b3 && validUtf8 bs3
      | _ => false
    else if 241 ≤ b && b ≤ 243 then
      match bs with
      | b1 :: b2 :: b3 :: bs3 =>
        utf8Cont b1 && utf8Cont b2 && utf8Cont b3 && validUtf8 bs3
      | _ => false
    else if b == 244 then
      match bs with
      | b1 :: b2 :: b3 :: bs3 =>
        (128 ≤ b1 && b1 ≤ 143) && utf8Cont b2 && utf8Cont b3 && validUtf8 bs3
      | _ => false
    else false

/-- Outcome of a host-side helper inside an import closure: a value, a
recoverable error (returned as `Err`, which wasmtime converts to a guest
trap), or a host-thread panic (`panic!()`). -/
inductive HostOutcome (α : Type) where
  | ok (a : α)
  | recoverableErr
  | panic
  deriving Repr, DecidableEq

/-- The bytes `memory.data()[start..(start+len) mod 2^32]` (`start + len`
is u32 arithmetic in the source and wraps). -/
def sliceBytes (mem : List Nat) (start len : Nat) : List Nat :=
  (mem.drop start).take ((start + len) % U32_MOD - start)

/-- `get_u8_vec`: slice `[start, start+len)` out of guest memory;
`slice::get` returning `None` (range out of bounds or wrapped) hits the
`panic!()` arm. -/
def get_u8_vec (mem : List Nat) (start len : Nat) : HostOutcome (List Nat) :=
  let stop := (start + len) % U32_MOD
  if start ≤ stop ∧ stop ≤ mem.length then .ok (sliceBytes mem start len)
  else .panic

/-- `get_string`: `get_u8_vec`, then `std::str::from_utf8`; a UTF-8 error
is returned as a recoverable error. -/
def get_string (mem : List Nat) (start len : Nat) : HostOutcome (List Nat) :=
  match get_u8_vec mem start len with
  | .ok data => if validUtf8 data then .ok data else .recoverableErr
  | .recoverableErr => .recoverableErr
  | .panic => .panic

/-- What an invocation of an imported host function amounts to: the
context sink receives the payload (closure returns `Ok(())`), or the
closure returns `Err` (a guest trap), or the host thread panics.
The raw `i32` recipient is carried as-is; `MessageRecipient::decode_i32`
lives in the external `stateroom` crate. -/
inductive ImportResult where
  | delivered (recipient : Int) (payload : List Nat)
  | guestTrap
  | hostPanic
  deriving Repr, DecidableEq

/-- The `send_message` import closure: `get_memory` (panics when the
`memory` export is absent), `get_string`, then `context.send_message`. -/
def host_send_message (memExport : Option (List Nat)) (client : Int)
    (start len : Nat) : ImportResult :=
  match memExport with
  | none => .hostPanic
  | some mem =>
    match get_string mem start len with
    | .ok s => .delivered client s
    | .recoverableErr => .guestTrap
    | .panic => .hostPanic

/-- The `send_binary` import closure: `get_memory`, `get_u8_vec`, then
`context.send_binary`. -/
def host_send_binary (memExport : Option (List Nat)) (client : Int)
    (start len : Nat) : ImportResult :=
  match memExport with
  | none => .hostPanic
  | some mem =>
    match get_u8_vec mem start len with
    | .ok s => .delivered client s
    | .recoverableErr => .guestTrap
    | .panic => .hostPanic

/-! ### Alloc/free bookkeeping over traces -/

/-- Net guest-resident bytes contributed by one trace event. -/
def allocDelta : TraceEv → Int
  | .mallocCall len => (len : Int)
  | .freeCall _ len => -(len : Int)
  | _ => 0

/-- Net change in adapter-originated allocated bytes over a trace. -/
def netAlloc (tr : List TraceEv) : Int := (tr.map allocDelta).sum

/-- Projection of a construction result onto its error, `none` on
success (the host itself contains function values, so results are
compared through this projection in concrete statements). -/
def newErr {S : Type} : Except NewError (WasmHost S) → Option NewError
  | .ok _ => none
  | .error e => some e

/-! ### Concrete guest instances for witnesses and counterexamples -/

/-- An eight-byte zeroed store with trivial private state. -/
def stubStore : Store Unit := ⟨List.replicate 8 0, ()⟩

/-- A guest whose every export succeeds; `jam_malloc` always returns 0. -/
def okGuest : GuestFns Unit where
  malloc := fun st _ => (st, .ok 0)
  free := fun st _ _ => (st, none)
  message := fun st _ _ _ => (st, none)
  binary := fun st _ _ _ => (st, none)
  connect := fun st _ => (st, none)
  disconnect := fun st _ => (st, none)
  timer := fun st => (st, none)
  initGuest := fun st _ _ => (st, none)

/-- Like `okGuest` but the exported `message` function always traps. -/
def trapMsgGuest : GuestFns Unit :=
  { okGuest with message := fun st _ _ _ => (st, some "boom") }

/-- Like `okGuest` but `jam_malloc` returns offset 100, past the end of
`stubStore`'s 8-byte memory, so the payload write goes out of bounds. -/
def oobGuest : GuestFns Unit :=
  { okGuest with malloc := fun st _ => (st, .ok 100) }

/-- Like `okGuest` but the exported `jam_free` always traps. -/
def freeTrapGuest : GuestFns Unit :=
  { okGuest with free := fun st _ _ => (st, some "free-trap") }

/-- A module whose version cells hold ABI version 2 (bad) and protocol 0:
both globals point at offset 0, where the bytes `[2,0,0,0]` reside;
`jam_malloc` hands out offset 4 so the room-id write leaves the cell
alone. -/
def badVersionModule : ModuleInst Unit :=
  ⟨{ okGuest with malloc := fun st _ => (st, .ok 4) },
    fun n =>
      if n = EXT_JAMSOCKET_VERSION then some (.i32 0)
      else if n = EXT_JAMSOCKET_PROTOCOL then some (.i32 0)
      else none⟩

/-- Memory for `badVersionModule`: the version cell holds 2. -/
def verStore : Store Unit := ⟨[2, 0, 0, 0, 0, 0, 0, 0], ()⟩

/-- A module whose ABI version cell (at 0) holds 1 and protocol cell
(at 4) holds 0; `jam_malloc` hands out offset 8. -/
def goodVersionModule : ModuleInst Unit :=
  ⟨{ okGuest with malloc := fun st _ => (st, .ok 8) },
    fun n =>
      if n = EXT_JAMSOCKET_VERSION then some (.i32 0)
      else if n = EXT_JAMSOCKET_PROTOCOL then some (.i32 4)
      else none⟩

/-- Memory for `goodVersionModule`. -/
def goodStore : Store Unit := ⟨[1, 0, 0, 0, 0, 0, 0, 0, 0, 0, 0, 0], ()⟩

instance {ε α : Type} [DecidableEq ε] [DecidableEq α] :
    DecidableEq (Except ε α) := fun x y =>
  match x, y with
  | .ok a, .ok b =>
    if h : a = b then .isTrue (h ▸ rfl)
    else .isFalse (fun hh => h (Except.ok.inj hh))
  | .error a, .error b =>
    if h : a = b then .isTrue (h ▸ rfl)
    else .isFalse (fun hh => h (Except.error.inj hh))
  | .ok _, .error _ => .isFalse (fun hh => Except.noConfusion hh)
  | .error _, .ok _ => .isFalse (fun hh => Except.noConfusion hh)

/-! ### Helper lemmas -/

theorem memWrite_of_fits {S : Type} (st : Store S) (pt : Nat) (data : List Nat)
    (h : pt + data.length ≤ st.mem.length) :
    memWrite st pt data = some { st with mem := writeBytes st.mem pt data } := by
  unfold memWrite
  rw [if_pos h]

theorem memWrite_of_oob {S : Type} (st : Store S) (pt : Nat) (data : List Nat)
    (h : st.mem.length < pt + data.length) :
    memWrite st pt data = none := by
  unfold memWrite
  rw [if_neg (by omega)]

theorem put_data_trace_head {S : Type} (h : WasmHost S) (data : List Nat) :
    ∃ rest, (h.put_data data).2.2
      = .mallocCall (data.length % U32_MOD) :: rest := by
  rcases hm : h.fns.malloc h.store (data.length % U32_MOD) with ⟨st, r⟩
  cases r with
  | error t => exact ⟨[], by simp [WasmHost.put_data, hm]⟩
  | ok pt =>
    rcases hw : memWrite st pt data with _ | st'
    · exact ⟨[.memWriteAttempt pt (data.length % U32_MOD)],
        by simp [WasmHost.put_data, hm, hw]⟩
    · exact ⟨[.memWriteAttempt pt (data.length % U32_MOD)],
        by simp [WasmHost.put_data, hm, hw]⟩

theorem try_message_trace_head {S : Type} (h : WasmHost S) (c : Nat)
    (m : List Nat) :
    ∃ rest, (h.try_message c m).trace
      = .mallocCall (m.length % U32_MOD) :: rest := by
  obtain ⟨rest0, hpd⟩ := put_data_trace_head h m
  rcases hp : h.put_data m with ⟨h', r, tr⟩
  rw [hp] at hpd
  simp only at hpd
  subst hpd
  rcases r with e | ⟨pt, len⟩
  · exact ⟨rest0, by simp [WasmHost.try_message, hp]⟩
  · rcases hmsg : h'.fns.message h'.store c pt len with ⟨st, t⟩
    cases t with
    | some t =>
      exact ⟨rest0 ++ [.messageCall c pt len],
        by simp [WasmHost.try_message, hp, hmsg]⟩
    | none =>
      rcases hfr : h'.fns.free st pt len with ⟨st2, t2⟩
      cases t2 with
      | some t2 =>
        exact ⟨rest0 ++ [.messageCall c pt len, .freeCall pt len],
          by simp [WasmHost.try_message, hp, hmsg, hfr]⟩
      | none =>
        exact ⟨rest0 ++ [.messageCall c pt len, .freeCall pt len],
          by simp [WasmHost.try_message, hp, hmsg, hfr]⟩

theorem try_binary_trace_head {S : Type} (h : WasmHost S) (c : Nat)
    (m : List Nat) :
    ∃ rest, (h.try_binary c m).trace
      = .mallocCall (m.length % U32_MOD) :: rest := by
  obtain ⟨rest0, hpd⟩ := put_data_trace_head h m
  rcases hp : h.put_data m with ⟨h', r, tr⟩
  rw [hp] at hpd
  simp only at hpd
  subst hpd
  rcases r with e | ⟨pt, len⟩
  · exact ⟨rest0, by simp [WasmHost.try_binary, hp]⟩
  · rcases hmsg : h'.fns.binary h'.store c pt len with ⟨st, t⟩
    cases t with
    | some t =>
      exact ⟨rest0 ++ [.binaryCall c pt len],
        by simp [WasmHost.try_binary, hp, hmsg]⟩
    | none =>
      rcases hfr : h'.fns.free st pt len with ⟨st2, t2⟩
      cases t2 with
      | some t2 =>
        exact ⟨rest0 ++ [.binaryCall c pt len, .freeCall pt len],
          by simp [WasmHost.try_binary, hp, hmsg, hfr]⟩
      | none =>
        exact ⟨rest0 ++ [.binaryCall c pt len, .freeCall pt len],
          by simp [WasmHost.try_binary, hp, hmsg, hfr]⟩

theorem message_trace_eq {S : Type} (h : WasmHost S) (c : Nat) (m : List Nat) :
    (WasmHost.message h c m).trace = (h.try_message c m).trace := by
  rcases hm : h.try_message c m with ⟨h', e, tr⟩
  cases e <;> simp [WasmHost.message, hm]

theorem binary_trace_eq {S : Type} (h : WasmHost S) (c : Nat) (m : List Nat) :
    (WasmHost.binary h c m).trace = (h.try_binary c m).trace := by
  rcases hm : h.try_binary c m with ⟨h', e, tr⟩
  cases e <;> simp [WasmHost.binary, hm]

theorem connect_trace_eq {S : Type} (h : WasmHost S) (c : Nat) :
    (WasmHost.connect h c).trace = [.connectCall c] := by
  rcases hc : h.fns.connect h.store c with ⟨st, t⟩
  cases t <;> simp [WasmHost.connect, hc]

theorem disconnect_trace_eq {S : Type} (h : WasmHost S) (c : Nat) :
    (WasmHost.disconnect h c).trace = [.disconnectCall c] := by
  rcases hc : h.fns.disconnect h.store c with ⟨st, t⟩
  cases t <;> simp [WasmHost.disconnect, hc]

theorem timer_trace_eq {S : Type} (h : WasmHost S) :
    (WasmHost.timer h).trace = [.timerCall] := by
  rcases hc : h.fns.timer h.store with ⟨st, t⟩
  cases t <;> simp [WasmHost.timer, hc]

/-! ### Claim theorems -/

/-- C1: every public service method (`message`, `binary`, `connect`,
`disconnect`, `timer`) catches the error of the underlying guest call
inside the method, records it as a structured error event, and re-raises
nothing: the method's log equals exactly the caught error (when any)
wrapped in a `LogEvent`, and the method returns unit (its result type has
no error channel). -/
theorem c1_service_methods_swallow_traps {S : Type} (h : WasmHost S) (c : Nat)
    (m : List Nat) :
    (WasmHost.message h c m).log
      = ((h.try_message c m).err).map (LogEvent.errorCalling "message")
  ∧ (WasmHost.binary h c m).log
      = ((h.try_binary c m).err).map (LogEvent.errorCalling "binary")
  ∧ (WasmHost.connect h c).log
      = ((h.fns.connect h.store c).2).map
          (fun t => LogEvent.errorCalling "connect" (.trap t))
  ∧ (WasmHost.disconnect h c).log
      = ((h.fns.disconnect h.store c).2).map
          (fun t => LogEvent.errorCalling "disconnect" (.trap t))
  ∧ (WasmHost.timer h).log
      = ((h.fns.timer h.store).2).map
          (fun t => LogEvent.errorCalling "timer" (.trap t)) := by
  refine ⟨?_, ?_, ?_, ?_, ?_⟩
  · rcases hm : h.try_message c m with ⟨h', e, tr⟩
    cases e <;> simp [WasmHost.message, hm]
  · rcases hm : h.try_binary c m with ⟨h', e, tr⟩
    cases e <;> simp [WasmHost.binary, hm]
  · rcases hc : h.fns.connect h.store c with ⟨st, t⟩
    cases t <;> simp [WasmHost.connect, hc]
  · rcases hc : h.fns.disconnect h.store c with ⟨st, t⟩
    cases t <;> simp [WasmHost.disconnect, hc]
  · rcases hc : h.fns.timer h.store with ⟨st, t⟩
    cases t <;> simp [WasmHost.timer, hc]

/-- C9: the host stores no poisoned flag: after a failed delivery (here a
failed `message`), every subsequent service method still performs the
corresponding guest call on the resulting host (its trace records the
call) rather than short-circuiting to a no-op. -/
theorem c9_no_poisoning {S : Type} (h0 : WasmHost S) (c0 : Nat) (m0 : List Nat)
    (c : Nat) (m : List Nat)
    (_hfail : (WasmHost.message h0 c0 m0).log ≠ none) :
    TraceEv.connectCall c
      ∈ (WasmHost.connect (WasmHost.message h0 c0 m0).host c).trace
  ∧ TraceEv.disconnectCall c
      ∈ (WasmHost.disconnect (WasmHost.message h0 c0 m0).host c).trace
  ∧ TraceEv.timerCall
      ∈ (WasmHost.timer (WasmHost.message h0 c0 m0).host).trace
  ∧ TraceEv.mallocCall (m.length % U32_MOD)
      ∈ (WasmHost.message (WasmHost.message h0 c0 m0).host c m).trace
  ∧ TraceEv.mallocCall (m.length % U32_MOD)
      ∈ (WasmHost.binary (WasmHost.message h0 c0 m0).host c m).trace := by
  refine ⟨?_, ?_, ?_, ?_, ?_⟩
  · rw [connect_trace_eq]
    simp
  · rw [disconnect_trace_eq]
    simp
  · rw [timer_trace_eq]
    simp
  · rw [message_trace_eq]
    obtain ⟨rest, hr⟩ := try_message_trace_head (WasmHost.message h0 c0 m0).host c m
    rw [hr]
    simp
  · rw [binary_trace_eq]
    obtain ⟨rest, hr⟩ := try_binary_trace_head (WasmHost.message h0 c0 m0).host c m
    rw [hr]
    simp

/-- C9 witness: a guest whose `message` export traps; the delivery fails,
and each follow-up method still reaches the guest. -/
theorem c9_no_poisoning_witness :
    TraceEv.connectCall 1
      ∈ (WasmHost.connect (WasmHost.message ⟨stubStore, trapMsgGuest⟩ 0 [7]).host 1).trace
  ∧ TraceEv.disconnectCall 1
      ∈ (WasmHost.disconnect (WasmHost.message ⟨stubStore, trapMsgGuest⟩ 0 [7]).host 1).trace
  ∧ TraceEv.timerCall
      ∈ (WasmHost.timer (WasmHost.message ⟨stubStore, trapMsgGuest⟩ 0 [7]).host).trace
  ∧ TraceEv.mallocCall ([8].length % U32_MOD)
      ∈ (WasmHost.message (WasmHost.message ⟨stubStore, trapMsgGuest⟩ 0 [7]).host 1 [8]).trace
  ∧ TraceEv.mallocCall ([8].length % U32_MOD)
      ∈ (WasmHost.binary (WasmHost.message ⟨stubStore, trapMsgGuest⟩ 0 [7]).host 1 [8]).trace :=
  c9_no_poisoning ⟨stubStore, trapMsgGuest⟩ 0 [7] 1 [8] (by decide)

/-- C10: a `jam_malloc` result of 0 is not treated as an allocation
failure: when the guest allocator returns offset 0 (and the write fits),
`put_data` succeeds with pointer 0, writes the payload at offset 0, and
`try_message`/`try_binary` invoke the target guest function with
`pt = 0`, exactly as for a non-zero offset. -/
theorem c10_malloc_zero_is_not_failure {S : Type} (h : WasmHost S) (c : Nat)
    (msg : List Nat) (st : Store S)
    (hm : h.fns.malloc h.store (msg.length % U32_MOD) = (st, .ok 0))
    (hfit : msg.length ≤ st.mem.length) :
    h.put_data msg
      = ({ h with store := { st with mem := writeBytes st.mem 0 msg } },
          .ok (0, msg.length % U32_MOD),
          [.mallocCall (msg.length % U32_MOD),
            .memWriteAttempt 0 (msg.length % U32_MOD)])
  ∧ TraceEv.messageCall c 0 (msg.length % U32_MOD)
      ∈ (h.try_message c msg).trace
  ∧ TraceEv.binaryCall c 0 (msg.length % U32_MOD)
      ∈ (h.try_binary c msg).trace := by
  have hw : memWrite st 0 msg
      = some { st with mem := writeBytes st.mem 0 msg } :=
    memWrite_of_fits st 0 msg (by omega)
  have hpd : h.put_data msg
      = ({ h with store := { st with mem := writeBytes st.mem 0 msg } },
          .ok (0, msg.length % U32_MOD),
          [.mallocCall (msg.length % U32_MOD),
            .memWriteAttempt 0 (msg.length % U32_MOD)]) := by
    simp [WasmHost.put_data, hm, hw]
  refine ⟨hpd, ?_, ?_⟩
  · simp only [WasmHost.try_message, hpd]
    rcases hmsg : h.fns.message { st with mem := writeBytes st.mem 0 msg } c 0
        (msg.length % U32_MOD) with ⟨st2, t⟩
    cases t with
    | some t => simp [hmsg]
    | none =>
      rcases hfr : h.fns.free st2 0 (msg.length % U32_MOD) with ⟨st3, t2⟩
      cases t2 <;> simp [hmsg, hfr]
  · simp only [WasmHost.try_binary, hpd]
    rcases hmsg : h.fns.binary { st with mem := writeBytes st.mem 0 msg } c 0
        (msg.length % U32_MOD) with ⟨st2, t⟩
    cases t with
    | some t => simp [hmsg]
    | none =>
      rcases hfr : h.fns.free st2 0 (msg.length % U32_MOD) with ⟨st3, t2⟩
      cases t2 <;> simp [hmsg, hfr]

/-- C10 witness: `okGuest`'s allocator returns 0 and the delivery
proceeds at offset 0. -/
theorem c10_malloc_zero_is_not_failure_witness :
    (WasmHost.put_data ⟨stubStore, okGuest⟩ [5, 6])
      = (⟨{ stubStore with mem := writeBytes stubStore.mem 0 [5, 6] }, okGuest⟩,
          .ok (0, [5, 6].length % U32_MOD),
          [.mallocCall ([5, 6].length % U32_MOD),
            .memWriteAttempt 0 ([5, 6].length % U32_MOD)])
  ∧ TraceEv.messageCall 3 0 ([5, 6].length % U32_MOD)
      ∈ (WasmHost.try_message ⟨stubStore, okGuest⟩ 3 [5, 6]).trace
  ∧ TraceEv.binaryCall 3 0 ([5, 6].length % U32_MOD)
      ∈ (WasmHost.try_binary ⟨stubStore, okGuest⟩ 3 [5, 6]).trace :=
  c10_malloc_zero_is_not_failure ⟨stubStore, okGuest⟩ 3 [5, 6] stubStore rfl
    (by decide)

/-- C4 counterexample: a guest allocator hands out offset 100 in an
8-byte memory, so the payload write is out of bounds; `try_message` does
fail with the memory error, but no `jam_free` call appears in the trace —
the claimed best-effort cleanup never happens. -/
theorem c4_counterexample :
    (WasmHost.try_message ⟨stubStore, oobGuest⟩ 0 [7]).err
      = some .memoryOutOfBounds
  ∧ (WasmHost.try_message ⟨stubStore, oobGuest⟩ 0 [7]).trace
      = [.mallocCall 1, .memWriteAttempt 100 1]
  ∧ TraceEv.freeCall 100 1 ∉ (WasmHost.try_message ⟨stubStore, oobGuest⟩ 0 [7]).trace := by
  decide

/-- C4 (amended): when the payload write would run past the memory's
length, the operation fails with the memory-out-of-bounds error and
returns immediately: the matching `free(pt, len)` is *not* attempted (the
allocation leaks); the trace ends at the write attempt. -/
theorem c4_write_oob_fails_without_free {S : Type} (h : WasmHost S) (c : Nat)
    (msg : List Nat) (st : Store S) (pt : Nat)
    (hm : h.fns.malloc h.store (msg.length % U32_MOD) = (st, .ok pt))
    (hoob : st.mem.length < pt + msg.length) :
    (h.try_message c msg).err = some .memoryOutOfBounds
  ∧ (h.try_message c msg).trace
      = [.mallocCall (msg.length % U32_MOD),
          .memWriteAttempt pt (msg.length % U32_MOD)]
  ∧ (h.try_binary c msg).err = some .memoryOutOfBounds
  ∧ (h.try_binary c msg).trace
      = [.mallocCall (msg.length % U32_MOD),
          .memWriteAttempt pt (msg.length % U32_MOD)] := by
  have hw : memWrite st pt msg = none := memWrite_of_oob st pt msg hoob
  have hpd : h.put_data msg
      = ({ h with store := st }, .error .memoryOutOfBounds,
          [.mallocCall (msg.length % U32_MOD),
            .memWriteAttempt pt (msg.length % U32_MOD)]) := by
    simp [WasmHost.put_data, hm, hw]
  refine ⟨?_, ?_, ?_, ?_⟩ <;>
    simp [WasmHost.try_message, WasmHost.try_binary, hpd]

/-- C4 witness: concrete out-of-bounds write through `oobGuest`. -/
theorem c4_write_oob_fails_without_free_witness :
    (WasmHost.try_message ⟨stubStore, oobGuest⟩ 2 [9]).err
      = some .memoryOutOfBounds
  ∧ (WasmHost.try_message ⟨stubStore, oobGuest⟩ 2 [9]).trace
      = [.mallocCall ([9].length % U32_MOD),
          .memWriteAttempt 100 ([9].length % U32_MOD)]
  ∧ (WasmHost.try_binary ⟨stubStore, oobGuest⟩ 2 [9]).err
      = some .memoryOutOfBounds
  ∧ (WasmHost.try_binary ⟨stubStore, oobGuest⟩ 2 [9]).trace
      = [.mallocCall ([9].length % U32_MOD),
          .memWriteAttempt 100 ([9].length % U32_MOD)] :=
  c4_write_oob_fails_without_free ⟨stubStore, oobGuest⟩ 2 [9] stubStore 100 rfl
    (by decide)

/-- C5 counterexample: a guest whose `jam_free` traps after a fully
successful `message` delivery: the delivery operation does *not* complete
successfully — it returns the trap as its error (which the public method
then logs). -/
theorem c5_counterexample :
    (WasmHost.try_message ⟨stubStore, freeTrapGuest⟩ 0 [7]).err
      = some (.trap "free-trap")
  ∧ (WasmHost.message ⟨stubStore, freeTrapGuest⟩ 0 [7]).log
      = some (.errorCalling "message" (.trap "free-trap")) := by
  decide

/-- C5 (amended): when `alloc`, the write, and the target guest call all
succeed but the final `free(pt, len)` traps, the trap propagates out of
`try_message`/`try_binary` as the operation's error — the delivery
operation fails rather than completing successfully — and the enclosing
public method records it as its logged error event. -/
theorem c5_free_trap_fails_operation {S : Type} (h : WasmHost S) (c : Nat)
    (msg : List Nat) (st st2 st3 st5 st6 : Store S) (pt : Nat) (t t2 : Trap)
    (hm : h.fns.malloc h.store (msg.length % U32_MOD) = (st, .ok pt))
    (hfit : pt + msg.length ≤ st.mem.length)
    (hmsg : h.fns.message { st with mem := writeBytes st.mem pt msg } c pt
        (msg.length % U32_MOD) = (st2, none))
    (hfree : h.fns.free st2 pt (msg.length % U32_MOD) = (st3, some t))
    (hbin : h.fns.binary { st with mem := writeBytes st.mem pt msg } c pt
        (msg.length % U32_MOD) = (st5, none))
    (hfree2 : h.fns.free st5 pt (msg.length % U32_MOD) = (st6, some t2)) :
    (h.try_message c msg).err = some (.trap t)
  ∧ (WasmHost.message h c msg).log = some (.errorCalling "message" (.trap t))
  ∧ (h.try_binary c msg).err = some (.trap t2)
  ∧ (WasmHost.binary h c msg).log = some (.errorCalling "binary" (.trap t2)) := by
  have hw : memWrite st pt msg
      = some { st with mem := writeBytes st.mem pt msg } :=
    memWrite_of_fits st pt msg hfit
  have hpd : h.put_data msg
      = ({ h with store := { st with mem := writeBytes st.mem pt msg } },
          .ok (pt, msg.length % U32_MOD),
          [.mallocCall (msg.length % U32_MOD),
            .memWriteAttempt pt (msg.length % U32_MOD)]) := by
    simp [WasmHost.put_data, hm, hw]
  have htm : (h.try_message c msg).err = some (.trap t) := by
    simp [WasmHost.try_message, hpd, hmsg, hfree]
  have htb : (h.try_binary c msg).err = some (.trap t2) := by
    simp [WasmHost.try_binary, hpd, hbin, hfree2]
  refine ⟨htm, ?_, htb, ?_⟩
  · rcases he : h.try_message c msg with ⟨h', e, tr⟩
    rw [he] at htm
    simp only at htm
    subst htm
    simp [WasmHost.message, he]
  · rcases he : h.try_binary c msg with ⟨h', e, tr⟩
    rw [he] at htb
    simp only at htb
    subst htb
    simp [WasmHost.binary, he]

/-- C5 witness: `freeTrapGuest` at a concrete payload. -/
theorem c5_free_trap_fails_operation_witness :
    (WasmHost.try_message ⟨stubStore, freeTrapGuest⟩ 1 [3, 4]).err
      = some (.trap "free-trap")
  ∧ (WasmHost.message ⟨stubStore, freeTrapGuest⟩ 1 [3, 4]).log
      = some (.errorCalling "message" (.trap "free-trap"))
  ∧ (WasmHost.try_binary ⟨stubStore, freeTrapGuest⟩ 1 [3, 4]).err
      = some (.trap "free-trap")
  ∧ (WasmHost.binary ⟨stubStore, freeTrapGuest⟩ 1 [3, 4]).log
      = some (.errorCalling "binary" (.trap "free-trap")) :=
  c5_free_trap_fails_operation ⟨stubStore, freeTrapGuest⟩ 1 [3, 4]
    stubStore { stubStore with mem := writeBytes stubStore.mem 0 [3, 4] }
    { stubStore with mem := writeBytes stubStore.mem 0 [3, 4] }
    { stubStore with mem := writeBytes stubStore.mem 0 [3, 4] }
    { stubStore with mem := writeBytes stubStore.mem 0 [3, 4] } 0
    "free-trap" "free-trap" rfl (by decide) rfl rfl rfl rfl

/-- C2 counterexample: an out-of-bounds pointer range handed to the
imported `send_message` / `send_binary` closures hits the `panic!()` arm
of `get_u8_vec` — a host-thread panic, not a recoverable error converted
to a guest trap. -/
theorem c2_counterexample :
    host_send_message (some []) 0 5 4 = .hostPanic
  ∧ host_send_binary (some []) 0 5 4 = .hostPanic := by
  decide

/-- C2 (amended): for an in-bounds range, `send_binary` always delivers
and `send_message` delivers exactly when the bytes are valid UTF-8,
surfacing invalid UTF-8 as a recoverable error converted to a guest trap;
for an out-of-bounds range (or a missing `memory` export) both closures
panic on the host thread. -/
theorem c2_oob_panics_and_utf8_traps (mem : List Nat) (client : Int)
    (start len : Nat) :
    (start ≤ (start + len) % U32_MOD ∧ (start + len) % U32_MOD ≤ mem.length →
        host_send_binary (some mem) client start len
          = .delivered client (sliceBytes mem start len)
      ∧ host_send_message (some mem) client start len
          = (if validUtf8 (sliceBytes mem start len) then
              .delivered client (sliceBytes mem start len)
            else .guestTrap))
  ∧ (¬(start ≤ (start + len) % U32_MOD ∧ (start + len) % U32_MOD ≤ mem.length) →
        host_send_binary (some mem) client start len = .hostPanic
      ∧ host_send_message (some mem) client start len = .hostPanic)
  ∧ host_send_binary none client start len = .hostPanic
  ∧ host_send_message none client start len = .hostPanic := by
  refine ⟨?_, ?_, rfl, rfl⟩
  · intro hin
    have hv : get_u8_vec mem start len = .ok (sliceBytes mem start len) := by
      unfold get_u8_vec
      rw [if_pos hin]
    constructor
    · simp [host_send_binary, hv]
    · by_cases hu : validUtf8 (sliceBytes mem start len)
      · simp [host_send_message, get_string, hv, hu]
      · simp [host_send_message, get_string, hv, hu]
  · intro hout
    have hv : get_u8_vec mem start len = .panic := by
      unfold get_u8_vec
      rw [if_neg hout]
    constructor
    · simp [host_send_binary, hv]
    · simp [host_send_message, get_string, hv]

/-- C2 witness: in-bounds invalid UTF-8 is a guest trap, in-bounds valid
UTF-8 is delivered, and an out-of-bounds range panics. -/
theorem c2_oob_panics_and_utf8_traps_witness :
    host_send_message (some [255]) 0 0 1 = .guestTrap
  ∧ host_send_binary (some [255]) 0 0 1 = .delivered 0 [255]
  ∧ host_send_message (some []) 0 2 1 = .hostPanic := by
  have h1 := (c2_oob_panics_and_utf8_traps [255] 0 0 1).1 (by decide)
  have h2 := ((c2_oob_panics_and_utf8_traps [] 0 2 1).2.1 (by decide)).2
  refine ⟨?_, ?_, h2⟩
  · have := h1.2
    revert this
    decide
  · have := h1.1
    revert this
    decide

theorem get_global_error_eq {S : Type} (st : Store S)
    (globals : String → Option GlobalVal) (gname : String) (e : NewError)
    (h : get_global st globals gname = .error e) :
    e = .couldNotImportGlobal := by
  rcases hg : globals gname with _ | gv
  · simp only [get_global, hg] at h
    exact (Except.error.inj h).symm
  · rcases gv with gi | _
    · rcases hs : sliceGet st.mem (u32OfI32 gi) (u32OfI32 gi + 4) with _ | bytes
      · simp only [get_global, hg, hs] at h
        exact (Except.error.inj h).symm
      · simp only [get_global, hg, hs] at h
        exact absurd h (by simp)
    · simp only [get_global, hg] at h
      exact (Except.error.inj h).symm

theorem new_cases {S : Type} (rid : List Nat) (m : ModuleInst S)
    (st0 : Store S) :
    (∃ t, WasmHost.new rid m st0
        = (.error (.initTrap t), [.mallocCall (rid.length % U32_MOD)]))
  ∨ (∃ pt, WasmHost.new rid m st0
        = (.error .memoryOutOfBounds,
            [.mallocCall (rid.length % U32_MOD),
              .memWriteAttempt pt (rid.length % U32_MOD)]))
  ∨ (∃ pt t, WasmHost.new rid m st0
        = (.error (.initTrap t),
            [.mallocCall (rid.length % U32_MOD),
              .memWriteAttempt pt (rid.length % U32_MOD),
              .initCall pt (rid.length % U32_MOD)]))
  ∨ (∃ pt t, WasmHost.new rid m st0
        = (.error (.initTrap t),
            [.mallocCall (rid.length % U32_MOD),
              .memWriteAttempt pt (rid.length % U32_MOD),
              .initCall pt (rid.length % U32_MOD),
              .freeCall pt (rid.length % U32_MOD)]))
  ∨ (∃ pt, WasmHost.new rid m st0
        = (.error .couldNotImportGlobal,
            [.mallocCall (rid.length % U32_MOD),
              .memWriteAttempt pt (rid.length % U32_MOD),
              .initCall pt (rid.length % U32_MOD),
              .freeCall pt (rid.length % U32_MOD),
              .readGlobalErr EXT_JAMSOCKET_VERSION]))
  ∨ (∃ pt v, v ≠ EXPECTED_API_VERSION ∧ WasmHost.new rid m st0
        = (.error .invalidApiVersion,
            [.mallocCall (rid.length % U32_MOD),
              .memWriteAttempt pt (rid.length % U32_MOD),
              .initCall pt (rid.length % U32_MOD),
              .freeCall pt (rid.length % U32_MOD),
              .readGlobalOk EXT_JAMSOCKET_VERSION v]))
  ∨ (∃ pt, WasmHost.new rid m st0
        = (.error .couldNotImportGlobal,
            [.mallocCall (rid.length % U32_MOD),
              .memWriteAttempt pt (rid.length % U32_MOD),
              .initCall pt (rid.length % U32_MOD),
              .freeCall pt (rid.length % U32_MOD),
              .readGlobalOk EXT_JAMSOCKET_VERSION EXPECTED_API_VERSION,
              .readGlobalErr EXT_JAMSOCKET_PROTOCOL]))
  ∨ (∃ pt p, p ≠ EXPECTED_PROTOCOL_VERSION ∧ WasmHost.new rid m st0
        = (.error .invalidProtocolVersion,
            [.mallocCall (rid.length % U32_MOD),
              .memWriteAttempt pt (rid.length % U32_MOD),
              .initCall pt (rid.length % U32_MOD),
              .freeCall pt (rid.length % U32_MOD),
              .readGlobalOk EXT_JAMSOCKET_VERSION EXPECTED_API_VERSION,
              .readGlobalOk EXT_JAMSOCKET_PROTOCOL p]))
  ∨ (∃ pt st4, WasmHost.new rid m st0
        = (.ok ⟨st4, m.fns⟩,
            [.mallocCall (rid.length % U32_MOD),
              .memWriteAttempt pt (rid.length % U32_MOD),
              .initCall pt (rid.length % U32_MOD),
              .freeCall pt (rid.length % U32_MOD),
              .readGlobalOk EXT_JAMSOCKET_VERSION EXPECTED_API_VERSION,
              .readGlobalOk EXT_JAMSOCKET_PROTOCOL
                EXPECTED_PROTOCOL_VERSION])) := by
  rcases hm : m.fns.malloc st0 (rid.length % U32_MOD) with ⟨st1, r⟩
  rcases r with t | pt
  · exact Or.inl ⟨t, by simp [WasmHost.new, hm]⟩
  · rcases hw : memWrite st1 pt rid with _ | st2
    · exact Or.inr (Or.inl ⟨pt, by simp [WasmHost.new, hm, hw]⟩)
    · rcases hi : m.fns.initGuest st2 pt (rid.length % U32_MOD) with ⟨st3, ti⟩
      rcases ti with _ | ti
      · rcases hf : m.fns.free st3 pt (rid.length % U32_MOD) with ⟨st4, tf⟩
        rcases tf with _ | tf
        · rcases hgv : get_global st4 m.globals EXT_JAMSOCKET_VERSION
              with e | v
          · have he := get_global_error_eq st4 m.globals
              EXT_JAMSOCKET_VERSION e hgv
            subst he
            refine Or.inr (Or.inr (Or.inr (Or.inr (Or.inl ⟨pt, ?_⟩))))
            simp [WasmHost.new, hm, hw, hi, hf, hgv]
          · by_cases hv : v = EXPECTED_API_VERSION
            · subst hv
              rcases hgp : get_global st4 m.globals EXT_JAMSOCKET_PROTOCOL
                  with e | p
              · have he := get_global_error_eq st4 m.globals
                  EXT_JAMSOCKET_PROTOCOL e hgp
                subst he
                refine Or.inr (Or.inr (Or.inr (Or.inr (Or.inr (Or.inr
                  (Or.inl ⟨pt, ?_⟩))))))
                simp [WasmHost.new, hm, hw, hi, hf, hgv, hgp]
              · by_cases hp : p = EXPECTED_PROTOCOL_VERSION
                · subst hp
                  refine Or.inr (Or.inr (Or.inr (Or.inr (Or.inr (Or.inr
                    (Or.inr (Or.inr ⟨pt, st4, ?_⟩)))))))
                  simp [WasmHost.new, hm, hw, hi, hf, hgv, hgp]
                · refine Or.inr (Or.inr (Or.inr (Or.inr (Or.inr (Or.inr
                    (Or.inr (Or.inl ⟨pt, p, hp, ?_⟩)))))))
                  simp [WasmHost.new, hm, hw, hi, hf, hgv, hgp, hp]
            · refine Or.inr (Or.inr (Or.inr (Or.inr (Or.inr (Or.inl
                ⟨pt, v, hv, ?_⟩)))))
              simp [WasmHost.new, hm, hw, hi, hf, hgv, hv]
        · refine Or.inr (Or.inr (Or.inr (Or.inl ⟨pt, tf, ?_⟩)))
          simp [WasmHost.new, hm, hw, hi, hf]
      · refine Or.inr (Or.inr (Or.inl ⟨pt, ti, ?_⟩))
        simp [WasmHost.new, hm, hw, hi]

/-- C3 counterexample: a module whose ABI version cell holds 2.
Construction fails with the version mismatch, yet the trace shows the
room id was copied and `initialize` was called (and freed) *before* the
version global was read: the claimed check-before-initialize order is
refuted. -/
theorem c3_counterexample :
    newErr (WasmHost.new [114] badVersionModule verStore).1
      = some .invalidApiVersion
  ∧ (WasmHost.new [114] badVersionModule verStore).2
      = [.mallocCall 1, .memWriteAttempt 4 1, .initCall 4 1, .freeCall 4 1,
          .readGlobalOk EXT_JAMSOCKET_VERSION 2]
  ∧ TraceEv.initCall 4 1 ∈ (WasmHost.new [114] badVersionModule verStore).2 := by
  decide

/-- C3 (amended): the order is the reverse of the claim: the room id is
copied into guest memory and `initialize(pt, len)` is called (and the
buffer freed) *first*; the version globals are read and checked only
afterwards. Whenever construction reads any version global, the trace
begins with the complete malloc/write/initialize/free sequence. -/
theorem c3_initialize_precedes_version_check {S : Type} (rid : List Nat)
    (m : ModuleInst S) (st0 : Store S)
    (hread : ∃ gn, (∃ v, TraceEv.readGlobalOk gn v
          ∈ (WasmHost.new rid m st0).2)
        ∨ TraceEv.readGlobalErr gn ∈ (WasmHost.new rid m st0).2) :
    ∃ pt rest, (WasmHost.new rid m st0).2
      = [.mallocCall (rid.length % U32_MOD),
          .memWriteAttempt pt (rid.length % U32_MOD),
          .initCall pt (rid.length % U32_MOD),
          .freeCall pt (rid.length % U32_MOD)] ++ rest := by
  rcases new_cases rid m st0 with ⟨t, hn⟩ | ⟨pt, hn⟩ | ⟨pt, t, hn⟩
    | ⟨pt, t, hn⟩ | ⟨pt, hn⟩ | ⟨pt, v, hv, hn⟩ | ⟨pt, hn⟩ | ⟨pt, p, hp, hn⟩
    | ⟨pt, st4, hn⟩
  · rw [hn] at hread
    simp at hread
  · rw [hn] at hread
    simp at hread
  · rw [hn] at hread
    simp at hread
  · exact ⟨pt, [], by simp [hn]⟩
  · exact ⟨pt, [.readGlobalErr EXT_JAMSOCKET_VERSION], by simp [hn]⟩
  · exact ⟨pt, [.readGlobalOk EXT_JAMSOCKET_VERSION v], by simp [hn]⟩
  · exact ⟨pt, [.readGlobalOk EXT_JAMSOCKET_VERSION EXPECTED_API_VERSION,
      .readGlobalErr EXT_JAMSOCKET_PROTOCOL], by simp [hn]⟩
  · exact ⟨pt, [.readGlobalOk EXT_JAMSOCKET_VERSION EXPECTED_API_VERSION,
      .readGlobalOk EXT_JAMSOCKET_PROTOCOL p], by simp [hn]⟩
  · exact ⟨pt, [.readGlobalOk EXT_JAMSOCKET_VERSION EXPECTED_API_VERSION,
      .readGlobalOk EXT_JAMSOCKET_PROTOCOL EXPECTED_PROTOCOL_VERSION],
      by simp [hn]⟩

/-- C3 witness: the bad-version module reads a version global, and its
trace indeed starts with the full initialize sequence. -/
theorem c3_initialize_precedes_version_check_witness :
    ∃ pt rest, (WasmHost.new [114] badVersionModule verStore).2
      = [.mallocCall ([114].length % U32_MOD),
          .memWriteAttempt pt ([114].length % U32_MOD),
          .initCall pt ([114].length % U32_MOD),
          .freeCall pt ([114].length % U32_MOD)] ++ rest :=
  c3_initialize_precedes_version_check [114] badVersionModule verStore
    ⟨EXT_JAMSOCKET_VERSION, Or.inl ⟨2, by decide⟩⟩

/-- C6: construction succeeds only when the value read through
`JAMSOCKET_API_VERSION` equals 1 and the value read through
`JAMSOCKET_API_PROTOCOL` equals 0; reading any other value fails
construction with the corresponding version-mismatch error, and the
guest's `connect` export is never invoked by `new` on any module. -/
theorem c6_version_gate {S : Type} (rid : List Nat) (m : ModuleInst S)
    (st0 : Store S) :
    (∀ c, TraceEv.connectCall c ∉ (WasmHost.new rid m st0).2)
  ∧ (∀ hst, (WasmHost.new rid m st0).1 = .ok hst →
      TraceEv.readGlobalOk EXT_JAMSOCKET_VERSION EXPECTED_API_VERSION
          ∈ (WasmHost.new rid m st0).2
        ∧ TraceEv.readGlobalOk EXT_JAMSOCKET_PROTOCOL EXPECTED_PROTOCOL_VERSION
          ∈ (WasmHost.new rid m st0).2)
  ∧ (∀ v, TraceEv.readGlobalOk EXT_JAMSOCKET_VERSION v
        ∈ (WasmHost.new rid m st0).2 → v ≠ EXPECTED_API_VERSION →
      (WasmHost.new rid m st0).1 = .error .invalidApiVersion)
  ∧ (∀ p, TraceEv.readGlobalOk EXT_JAMSOCKET_PROTOCOL p
        ∈ (WasmHost.new rid m st0).2 → p ≠ EXPECTED_PROTOCOL_VERSION →
      (WasmHost.new rid m st0).1 = .error .invalidProtocolVersion) := by
  have hne : EXT_JAMSOCKET_VERSION ≠ EXT_JAMSOCKET_PROTOCOL := by decide
  refine ⟨?_, ?_, ?_, ?_⟩
  · intro c'
    rcases new_cases rid m st0 with ⟨t, hn⟩ | ⟨pt, hn⟩ | ⟨pt, t, hn⟩
      | ⟨pt, t, hn⟩ | ⟨pt, hn⟩ | ⟨pt, v, hv, hn⟩ | ⟨pt, hn⟩
      | ⟨pt, p, hp, hn⟩ | ⟨pt, st4, hn⟩ <;> simp [hn]
  · intro hst hok
    rcases new_cases rid m st0 with ⟨t, hn⟩ | ⟨pt, hn⟩ | ⟨pt, t, hn⟩
      | ⟨pt, t, hn⟩ | ⟨pt, hn⟩ | ⟨pt, v, hv, hn⟩ | ⟨pt, hn⟩
      | ⟨pt, p, hp, hn⟩ | ⟨pt, st4, hn⟩ <;>
      rw [hn] at hok <;> simp at hok <;> simp [hn]
  · intro v' hmem hnv
    rcases new_cases rid m st0 with ⟨t, hn⟩ | ⟨pt, hn⟩ | ⟨pt, t, hn⟩
      | ⟨pt, t, hn⟩ | ⟨pt, hn⟩ | ⟨pt, v, hv, hn⟩ | ⟨pt, hn⟩
      | ⟨pt, p, hp, hn⟩ | ⟨pt, st4, hn⟩ <;>
      rw [hn] at hmem <;> simp [hne] at hmem <;>
      first
        | exact absurd hmem hnv
        | simp [hn]
  · intro p' hmem hnp
    rcases new_cases rid m st0 with ⟨t, hn⟩ | ⟨pt, hn⟩ | ⟨pt, t, hn⟩
      | ⟨pt, t, hn⟩ | ⟨pt, hn⟩ | ⟨pt, v, hv, hn⟩ | ⟨pt, hn⟩
      | ⟨pt, p, hp, hn⟩ | ⟨pt, st4, hn⟩ <;>
      rw [hn] at hmem <;> simp [hne.symm] at hmem <;>
      first
        | exact absurd hmem hnp
        | simp [hn]

/-- C6 witness: the module whose ABI version cell holds 2 fails
construction with the version-mismatch error. -/
theorem c6_version_gate_witness :
    (WasmHost.new [114] badVersionModule verStore).1
      = .error .invalidApiVersion :=
  (c6_version_gate [114] badVersionModule verStore).2.2.1 2 (by decide)
    (by decide)

/-- C8: for every fully successful delivery via `try_message` or
`try_binary`, the single `jam_malloc(len)` is matched by exactly one
`jam_free(pt, len)` with the same pointer and length before the call
returns, and the net adapter-originated allocation over the trace is
zero; for every successful construction, the room-id allocation is freed
immediately after the `initialize` call, with the same balance. -/
theorem c8_alloc_free_balance {S : Type} (h : WasmHost S) (c : Nat)
    (msg : List Nat) (rid : List Nat) (m : ModuleInst S) (st0 : Store S) :
    ((h.try_message c msg).err = none →
      ∃ pt, (h.try_message c msg).trace
          = [.mallocCall (msg.length % U32_MOD),
              .memWriteAttempt pt (msg.length % U32_MOD),
              .messageCall c pt (msg.length % U32_MOD),
              .freeCall pt (msg.length % U32_MOD)]
        ∧ netAlloc (h.try_message c msg).trace = 0)
  ∧ ((h.try_binary c msg).err = none →
      ∃ pt, (h.try_binary c msg).trace
          = [.mallocCall (msg.length % U32_MOD),
              .memWriteAttempt pt (msg.length % U32_MOD),
              .binaryCall c pt (msg.length % U32_MOD),
              .freeCall pt (msg.length % U32_MOD)]
        ∧ netAlloc (h.try_binary c msg).trace = 0)
  ∧ (∀ hst, (WasmHost.new rid m st0).1 = .ok hst →
      ∃ pt, (WasmHost.new rid m st0).2
          = [.mallocCall (rid.length % U32_MOD),
              .memWriteAttempt pt (rid.length % U32_MOD),
              .initCall pt (rid.length % U32_MOD),
              .freeCall pt (rid.length % U32_MOD),
              .readGlobalOk EXT_JAMSOCKET_VERSION EXPECTED_API_VERSION,
              .readGlobalOk EXT_JAMSOCKET_PROTOCOL EXPECTED_PROTOCOL_VERSION]
        ∧ netAlloc (WasmHost.new rid m st0).2 = 0) := by
  refine ⟨?_, ?_, ?_⟩
  · intro hok
    rcases hm : h.fns.malloc h.store (msg.length % U32_MOD) with ⟨st, r⟩
    rcases r with t | pt
    · rw [show (h.try_message c msg).err = some (.trap t) by
        simp [WasmHost.try_message, WasmHost.put_data, hm]] at hok
      exact absurd hok (by simp)
    · rcases hw : memWrite st pt msg with _ | st2
      · rw [show (h.try_message c msg).err = some .memoryOutOfBounds by
          simp [WasmHost.try_message, WasmHost.put_data, hm, hw]] at hok
        exact absurd hok (by simp)
      · rcases hmsg : h.fns.message st2 c pt (msg.length % U32_MOD)
            with ⟨st3, tm⟩
        rcases tm with _ | tm
        · rcases hfr : h.fns.free st3 pt (msg.length % U32_MOD)
              with ⟨st4, tf⟩
          rcases tf with _ | tf
          · refine ⟨pt, ?_, ?_⟩ <;>
              simp [WasmHost.try_message, WasmHost.put_data, hm, hw, hmsg,
                hfr, netAlloc, allocDelta]
          · rw [show (h.try_message c msg).err = some (.trap tf) by
              simp [WasmHost.try_message, WasmHost.put_data, hm, hw, hmsg,
                hfr]] at hok
            exact absurd hok (by simp)
        · rw [show (h.try_message c msg).err = some (.trap tm) by
            simp [WasmHost.try_message, WasmHost.put_data, hm, hw,
              hmsg]] at hok
          exact absurd hok (by simp)
  · intro hok
    rcases hm : h.fns.malloc h.store (msg.length % U32_MOD) with ⟨st, r⟩
    rcases r with t | pt
    · rw [show (h.try_binary c msg).err = some (.trap t) by
        simp [WasmHost.try_binary, WasmHost.put_data, hm]] at hok
      exact absurd hok (by simp)
    · rcases hw : memWrite st pt msg with _ | st2
      · rw [show (h.try_binary c msg).err = some .memoryOutOfBounds by
          simp [WasmHost.try_binary, WasmHost.put_data, hm, hw]] at hok
        exact absurd hok (by simp)
      · rcases hmsg : h.fns.binary st2 c pt (msg.length % U32_MOD)
            with ⟨st3, tm⟩
        rcases tm with _ | tm
        · rcases hfr : h.fns.free st3 pt (msg.length % U32_MOD)
              with ⟨st4, tf⟩
          rcases tf with _ | tf
          · refine ⟨pt, ?_, ?_⟩ <;>
              simp [WasmHost.try_binary, WasmHost.put_data, hm, hw, hmsg,
                hfr, netAlloc, allocDelta]
          · rw [show (h.try_binary c msg).err = some (.trap tf) by
              simp [WasmHost.try_binary, WasmHost.put_data, hm, hw, hmsg,
                hfr]] at hok
            exact absurd hok (by simp)
        · rw [show (h.try_binary c msg).err = some (.trap tm) by
            simp [WasmHost.try_binary, WasmHost.put_data, hm, hw,
              hmsg]] at hok
          exact absurd hok (by simp)
  · intro hst hok
    rcases new_cases rid m st0 with ⟨t, hn⟩ | ⟨pt, hn⟩ | ⟨pt, t, hn⟩
      | ⟨pt, t, hn⟩ | ⟨pt, hn⟩ | ⟨pt, v, hv, hn⟩ | ⟨pt, hn⟩
      | ⟨pt, p, hp, hn⟩ | ⟨pt, st4, hn⟩ <;>
      rw [hn] at hok <;> simp only at hok
    · exact absurd hok (by simp)
    · exact absurd hok (by simp)
    · exact absurd hok (by simp)
    · exact absurd hok (by simp)
    · exact absurd hok (by simp)
    · exact absurd hok (by simp)
    · exact absurd hok (by simp)
    · exact absurd hok (by simp)
    · exact ⟨pt, by rw [hn], by rw [hn]; simp [netAlloc, allocDelta]⟩

/-- C8 witness: a fully successful `message` and `binary` delivery
through `okGuest`, and a successful construction through
`goodVersionModule`, each with the exact balanced trace. -/
theorem c8_alloc_free_balance_witness :
    (∃ pt, (WasmHost.try_message ⟨stubStore, okGuest⟩ 2 [7]).trace
        = [.mallocCall ([7].length % U32_MOD),
            .memWriteAttempt pt ([7].length % U32_MOD),
            .messageCall 2 pt ([7].length % U32_MOD),
            .freeCall pt ([7].length % U32_MOD)]
      ∧ netAlloc (WasmHost.try_message ⟨stubStore, okGuest⟩ 2 [7]).trace = 0)
  ∧ (∃ pt, (WasmHost.try_binary ⟨stubStore, okGuest⟩ 2 [7]).trace
        = [.mallocCall ([7].length % U32_MOD),
            .memWriteAttempt pt ([7].length % U32_MOD),
            .binaryCall 2 pt ([7].length % U32_MOD),
            .freeCall pt ([7].length % U32_MOD)]
      ∧ netAlloc (WasmHost.try_binary ⟨stubStore, okGuest⟩ 2 [7]).trace = 0)
  ∧ (∃ pt, (WasmHost.new [114] goodVersionModule goodStore).2
        = [.mallocCall ([114].length % U32_MOD),
            .memWriteAttempt pt ([114].length % U32_MOD),
            .initCall pt ([114].length % U32_MOD),
            .freeCall pt ([114].length % U32_MOD),
            .readGlobalOk EXT_JAMSOCKET_VERSION EXPECTED_API_VERSION,
            .readGlobalOk EXT_JAMSOCKET_PROTOCOL EXPECTED_PROTOCOL_VERSION]
      ∧ netAlloc (WasmHost.new [114] goodVersionModule goodStore).2 = 0) := by
  have h := c8_alloc_free_balance ⟨stubStore, okGuest⟩ 2 [7] [114]
    goodVersionModule goodStore
  exact ⟨h.1 (by decide), h.2.1 (by decide),
    h.2.2 ⟨⟨[1, 0, 0, 0, 0, 0, 0, 0, 114, 0, 0, 0], ()⟩,
      goodVersionModule.fns⟩ rfl⟩

theorem getD_take_drop (l : List Nat) (p k n : Nat) (hk : k < n) :
    ((l.drop p).take n).getD k 0 = l.getD (p + k) 0 := by
  rw [List.getD_eq_getElem?_getD, List.getD_eq_getElem?_getD,
    List.getElem?_take_of_lt hk, List.getElem?_drop]

/-- C7: the version globals are pointers, not values: `get_global` fails
when the named global is missing or not an `i32`; otherwise it treats the
global's value, cast to `u32`, as an address in guest memory and returns
the 32-bit little-endian integer formed from the four bytes there
(`readVersionCell`), failing when the four-byte range runs out of
bounds. -/
theorem c7_version_global_indirection {S : Type} (st : Store S)
    (globals : String → Option GlobalVal) (gname : String) :
    (globals gname = none →
      get_global st globals gname = .error .couldNotImportGlobal)
  ∧ (globals gname = some .other →
      get_global st globals gname = .error .couldNotImportGlobal)
  ∧ (∀ gi, globals gname = some (.i32 gi) →
      get_global st globals gname
        = match readVersionCell st.mem (u32OfI32 gi) with
          | some v => .ok v
          | none => .error .couldNotImportGlobal) := by
  refine ⟨?_, ?_, ?_⟩
  · intro hg
    simp [get_global, hg]
  · intro hg
    simp [get_global, hg]
  · intro gi hg
    by_cases hb : u32OfI32 gi + 4 ≤ st.mem.length
    · have hs : sliceGet st.mem (u32OfI32 gi) (u32OfI32 gi + 4)
          = some ((st.mem.drop (u32OfI32 gi)).take 4) := by
        unfold sliceGet
        rw [if_pos ⟨Nat.le_add_right _ _, hb⟩, Nat.add_sub_cancel_left]
      have hc : readVersionCell st.mem (u32OfI32 gi)
          = some (i32OfNat (st.mem.getD (u32OfI32 gi) 0
            + 256 * st.mem.getD (u32OfI32 gi + 1) 0
            + 65536 * st.mem.getD (u32OfI32 gi + 2) 0
            + 16777216 * st.mem.getD (u32OfI32 gi + 3) 0)) := by
        unfold readVersionCell
        rw [if_pos hb]
      simp only [get_global, hg, hs, hc]
      unfold readLE32
      rw [getD_take_drop st.mem (u32OfI32 gi) 0 4 (by omega),
        getD_take_drop st.mem (u32OfI32 gi) 1 4 (by omega),
        getD_take_drop st.mem (u32OfI32 gi) 2 4 (by omega),
        getD_take_drop st.mem (u32OfI32 gi) 3 4 (by omega)]
      simp
    · have hs : sliceGet st.mem (u32OfI32 gi) (u32OfI32 gi + 4) = none := by
        unfold sliceGet
        rw [if_neg]
        intro hcon
        exact hb hcon.2
      have hc : readVersionCell st.mem (u32OfI32 gi) = none := by
        unfold readVersionCell
        rw [if_neg hb]
      simp only [get_global, hg, hs, hc]

/-- C7 witness: a global holding pointer 0 over memory `[1,0,0,0]` reads
version 1; a missing global fails. -/
theorem c7_version_global_indirection_witness :
    get_global (⟨[1, 0, 0, 0], ()⟩ : Store Unit) (fun _ => some (.i32 0)) "g"
      = .ok 1
  ∧ get_global (⟨[1, 0, 0, 0], ()⟩ : Store Unit) (fun _ => none) "g"
      = .error .couldNotImportGlobal := by
  constructor
  · have h := (c7_version_global_indirection (⟨[1, 0, 0, 0], ()⟩ : Store Unit)
      (fun _ => some (.i32 0)) "g").2.2 0 rfl
    rw [h]
    decide
  · exact (c7_version_global_indirection (⟨[1, 0, 0, 0], ()⟩ : Store Unit)
      (fun _ => none) "g").1 rfl

end Stateroom
